import Mathlib

/-!
Verification development for the options-signal-system repository.

The definitions below are a shallow embedding of the Python sources:
  * src/market_data.py      (MarketSnapshot, is_suitable_for_iron_condor)
  * src/signal_generator.py (SignalGenerator, IronCondorSignal)
  * src/screener.py         (StockScreener, ScreenerResult, _calculate_scores)

Modelling conventions:
  * Python floats are modelled by rationals (ℚ); all arithmetic in the
    embedded code paths is exact.
  * pandas DataFrames of an option chain are modelled as ordered lists of
    rows (`List OptionRow`), preserving the provider ordering.
  * Python's `float.__truediv__` raises ZeroDivisionError on a zero
    denominator; the embedding makes this explicit: `generate_signal`
    returns `Except String _` and the only `.error` results correspond to
    uncaught Python exceptions.
  * `int(x)` truncates toward zero; this is `pyInt` below.
  * f-string interpolation of numbers into message strings is dropped:
    each message is represented by its constant text.  No claim depends on
    the interpolated digits.
  * Presentation-only fields of the dataclasses (source URLs, news lists,
    the `generated_at` timestamp) are omitted; no embedded code path
    reads them.
-/

deriving instance DecidableEq for Except

/-- One row of an option-chain table (a pandas DataFrame row in the source).
The columns modelled are the ones the embedded code reads: strike, bid,
ask, lastPrice and openInterest. -/
structure OptionRow where
  strike : ℚ
  bid : ℚ
  ask : ℚ
  lastPrice : ℚ
  openInterest : ℚ

deriving DecidableEq, Repr

/-- `MarketSnapshot` from src/market_data.py.  `putsHaveIVColumn` models
whether the puts DataFrame has an `impliedVolatility` column (the source
branches on `'impliedVolatility' in put_candidates.columns`). -/
structure MarketSnapshot where
  symbol : String
  price : ℚ
  vix : ℚ
  options_expiry : String
  calls : List OptionRow
  puts : List OptionRow
  iv_percentile : ℚ
  expected_move : ℚ
  has_earnings_today : Bool
  has_fed_event : Bool
  has_economic_data : Bool
  is_trading_day : Bool
  putsHaveIVColumn : Bool

deriving DecidableEq

/-- `MarketSnapshot.is_suitable_for_iron_condor` from src/market_data.py
(lines 43-68).  Returns (suitable, reason). -/
def MarketSnapshot.is_suitable_for_iron_condor (s : MarketSnapshot)
    (max_vix : ℚ) (min_vix : ℚ) : Bool × String :=
  if max_vix < s.vix then (false, "VIX zu hoch")
  else if s.vix < min_vix then (false, "VIX zu niedrig - zu wenig Premium")
  else if s.has_earnings_today then
    (false, "SPY/SPX Earnings-bezogene Volatilitaet erwartet")
  else if s.has_fed_event then
    (false, "Fed-Entscheidung heute - erhoehte Volatilitaet erwartet")
  else if s.has_economic_data then
    (false, "Wichtige Wirtschaftsdaten heute (CPI, Jobs, etc.)")
  else (true, "Bedingungen erfuellt")

/-- `IronCondorSignal` from src/signal_generator.py (the `generated_at`
timestamp is omitted). -/
structure IronCondorSignal where
  symbol : String
  expiry : String
  short_put_strike : ℚ
  long_put_strike : ℚ
  short_call_strike : ℚ
  long_call_strike : ℚ
  short_put_premium : ℚ
  long_put_premium : ℚ
  short_call_premium : ℚ
  long_call_premium : ℚ
  net_credit : ℚ
  max_loss : ℚ
  max_profit : ℚ
  breakeven_lower : ℚ
  breakeven_upper : ℚ
  recommended_contracts : Int
  total_risk : ℚ
  risk_percent : ℚ
  current_price : ℚ
  vix : ℚ
  expected_move : ℚ
  iv_percentile : ℚ
  risk_level : String
  confidence : String
  notes : List String
  is_valid : Bool
  rejection_reason : Option String

deriving DecidableEq

/-- The configuration values `SignalGenerator.__init__` reads from its
config dict (src/signal_generator.py lines 110-127); `target_delta` is
never used afterwards and is omitted. -/
structure SignalConfig where
  capital : ℚ
  max_risk_percent : ℚ
  wing_width : ℚ
  min_vix : ℚ
  max_vix : ℚ
  min_iv_percentile : ℚ

deriving DecidableEq

/-- The defaults from `SignalGenerator.__init__`: capital 5000,
max_risk_percent 2, wing_width 2, min_vix 12, max_vix 25,
min_iv_percentile 20. -/
def defaultConfig : SignalConfig :=
  { capital := 5000, max_risk_percent := 2, wing_width := 2
    min_vix := 12, max_vix := 25, min_iv_percentile := 20 }

/-- First element of `l` minimizing `|key x - target|`.
This models `df.iloc[(df['strike'] - target).abs().argsort()[:1]]`:
the row whose strike is nearest the target, the earliest listed row
winning ties. -/
def nearestBy (key : α → ℚ) (target : ℚ) : List α → Option α
  | [] => none
  | x :: rest =>
      match nearestBy key target rest with
      | none => some x
      | some b => some (if |key x - target| ≤ |key b - target| then x else b)

/-- Python's `int(x)` (truncation toward zero) on a rational. -/
def pyInt (q : ℚ) : Int := if 0 ≤ q then ⌊q⌋ else ⌈q⌉

/-- The short-strike selection inside `_find_optimal_strikes`
(src/signal_generator.py lines 296-315):
`candidates.iloc[(candidates['strike'] - target).abs().argsort()[:1]]['strike'].values[0]`,
the candidate strike nearest the target. -/
def short_strike_pick (target : ℚ) (candidates : List OptionRow) : ℚ :=
  ((nearestBy OptionRow.strike target candidates).map OptionRow.strike).getD 0

/-- The long-put fallback inside `_find_optimal_strikes`
(src/signal_generator.py lines 318-331): the exact wing strike when
listed, else the last listed strike below the short put, else
short put − 1. -/
def long_put_pick (strikes : List ℚ) (short_put wing : ℚ) : ℚ :=
  if short_put - wing ∈ strikes then short_put - wing
  else
    match (strikes.filter (fun s => s < short_put)).getLast? with
    | some s => s
    | none => short_put - 1

/-- The long-call fallback inside `_find_optimal_strikes`
(src/signal_generator.py lines 319, 333-338): the exact wing strike when
listed, else the first listed strike above the short call, else
short call + 1. -/
def long_call_pick (strikes : List ℚ) (short_call wing : ℚ) : ℚ :=
  if short_call + wing ∈ strikes then short_call + wing
  else
    match (strikes.filter (fun s => short_call < s)).head? with
    | some s => s
    | none => short_call + 1

/-- `SignalGenerator._find_optimal_strikes` (src/signal_generator.py lines
266-340).  Returns (short_put, long_put, short_call, long_call) or the
message of the raised ValueError.  Note both branches of the
`impliedVolatility`-column test compute the same targets
(price × 0.985 versus price − price × 0.015). -/
def find_optimal_strikes (wing_width : ℚ) (calls puts : List OptionRow)
    (current_price : ℚ) (putsHaveIV : Bool) :
    Except String (ℚ × ℚ × ℚ × ℚ) :=
  let put_candidates := puts.filter (fun r => r.strike < current_price)
  let call_candidates := calls.filter (fun r => current_price < r.strike)
  if put_candidates = [] then
    .error ("Keine Put-Strikes unter aktuellem Kurs verfuegbar")
  else if call_candidates = [] then
    .error ("Keine Call-Strikes ueber aktuellem Kurs verfuegbar")
  else
    let target_put_strike :=
      if putsHaveIV then current_price * (985/1000)
      else current_price - current_price * (15/1000)
    let target_call_strike :=
      if putsHaveIV then current_price * (1015/1000)
      else current_price + current_price * (15/1000)
    let short_put_strike := short_strike_pick target_put_strike put_candidates
    let short_call_strike := short_strike_pick target_call_strike call_candidates
    let long_put_strike :=
      long_put_pick (puts.map OptionRow.strike) short_put_strike wing_width
    let long_call_strike :=
      long_call_pick (calls.map OptionRow.strike) short_call_strike wing_width
    .ok (short_put_strike, long_put_strike, short_call_strike, long_call_strike)

/-- The inner `get_mid_price` of `SignalGenerator._get_premiums`
(src/signal_generator.py lines 352-367): first row with the exact strike,
else the row with the nearest strike; mid of bid/ask when both positive,
else lastPrice.  `none` only when the table is empty (the IndexError the
surrounding try/except catches). -/
def get_mid_price (df : List OptionRow) (strike : ℚ) : Option ℚ :=
  let row? :=
    match df.find? (fun r => decide (r.strike = strike)) with
    | some r => some r
    | none => nearestBy OptionRow.strike strike df
  match row? with
  | none => none
  | some row =>
      if 0 < row.bid ∧ 0 < row.ask then some ((row.bid + row.ask) / 2)
      else some row.lastPrice

/-- `SignalGenerator._get_premiums` (src/signal_generator.py lines
342-382): the four mid prices, `none` when a table is empty or a
short-leg premium is non-positive. -/
def get_premiums (calls puts : List OptionRow)
    (short_put long_put short_call long_call : ℚ) :
    Option (ℚ × ℚ × ℚ × ℚ) :=
  match get_mid_price puts short_put, get_mid_price puts long_put,
        get_mid_price calls short_call, get_mid_price calls long_call with
  | some sp, some lp, some sc, some lc =>
      if sp ≤ 0 ∨ sc ≤ 0 then none else some (sp, lp, sc, lc)
  | _, _, _, _ => none

/-- `SignalGenerator._check_liquidity` (src/signal_generator.py lines
384-408).  The open-interest values are read but never used in the
decision; only the bid-ask spread test can return False once both rows
exist. -/
def check_liquidity (calls puts : List OptionRow)
    (short_put short_call : ℚ) : Bool :=
  match puts.find? (fun r => decide (r.strike = short_put)),
        calls.find? (fun r => decide (r.strike = short_call)) with
  | some put_row, some call_row =>
      !(decide (0 < put_row.bid) &&
          decide ((put_row.ask - put_row.bid) / put_row.bid * 100 > 15)) &&
      !(decide (0 < call_row.bid) &&
          decide ((call_row.ask - call_row.bid) / call_row.bid * 100 > 15))
  | _, _ => false

/-- `SignalGenerator._assess_risk_level` (src/signal_generator.py lines
410-422); `risk_reward` is +inf when net_credit ≤ 0, so both ratio tests
hold in that case. -/
def assess_risk_level (vix net_credit wing_width : ℚ) : String :=
  let max_loss := wing_width - net_credit
  let ratioGT4 : Bool :=
    if 0 < net_credit then decide (4 < max_loss / net_credit) else true
  let ratioGT3 : Bool :=
    if 0 < net_credit then decide (3 < max_loss / net_credit) else true
  if 22 < vix ∨ ratioGT4 = true then "HIGH"
  else if 18 < vix ∨ ratioGT3 = true then "MEDIUM"
  else "LOW"

/-- Python's `"Warnung" in n`: substring test. -/
def noteIsWarning (n : String) : Bool := decide (1 < (n.splitOn ("Warnung")).length)

/-- `SignalGenerator._assess_confidence` (src/signal_generator.py lines
424-433). -/
def assess_confidence (vix expected_move : ℚ) (notes : List String) : String :=
  let warning_count := (notes.filter noteIsWarning).length
  if 1 < warning_count ∨ 2 < expected_move then "LOW"
  else if 0 < warning_count ∨ 20 < vix then "MEDIUM"
  else "HIGH"

/-- `SignalGenerator._create_invalid_signal` (src/signal_generator.py
lines 435-474): every numeric trade field is 0, is_valid false. -/
def create_invalid_signal (snapshot : MarketSnapshot) (reason : String) :
    IronCondorSignal :=
  { symbol := snapshot.symbol
    expiry := snapshot.options_expiry
    short_put_strike := 0, long_put_strike := 0
    short_call_strike := 0, long_call_strike := 0
    short_put_premium := 0, long_put_premium := 0
    short_call_premium := 0, long_call_premium := 0
    net_credit := 0, max_loss := 0, max_profit := 0
    breakeven_lower := 0, breakeven_upper := 0
    recommended_contracts := 0, total_risk := 0, risk_percent := 0
    current_price := snapshot.price
    vix := snapshot.vix
    expected_move := snapshot.expected_move
    iv_percentile := snapshot.iv_percentile
    risk_level := "N/A", confidence := "N/A", notes := []
    is_valid := false
    rejection_reason := some reason }

/-- `SignalGenerator.generate_signal` (src/signal_generator.py lines
129-264).  `.error` marks the uncaught ZeroDivisionError Python raises in
step 8 when `max_loss = 0` (at `max_risk_dollar / max_loss`) or when
`capital = 0` (at `total_risk / self.capital`). -/
def generate_signal (cfg : SignalConfig) (snapshot : MarketSnapshot) :
    Except String IronCondorSignal :=
  let sr := snapshot.is_suitable_for_iron_condor cfg.max_vix cfg.min_vix
  if sr.1 = false then .ok (create_invalid_signal snapshot sr.2)
  else if snapshot.iv_percentile < cfg.min_iv_percentile then
    .ok (create_invalid_signal snapshot ("IV Percentile zu niedrig"))
  else if snapshot.calls = [] ∨ snapshot.puts = [] then
    .ok (create_invalid_signal snapshot ("Keine Optionsdaten verfuegbar"))
  else
    match find_optimal_strikes cfg.wing_width snapshot.calls snapshot.puts
        snapshot.price snapshot.putsHaveIVColumn with
    | .error e =>
        .ok (create_invalid_signal snapshot ("Fehler bei Strike-Berechnung: " ++ e))
    | .ok (short_put_strike, long_put_strike, short_call_strike, long_call_strike) =>
      match get_premiums snapshot.calls snapshot.puts short_put_strike
          long_put_strike short_call_strike long_call_strike with
      | none =>
          .ok (create_invalid_signal snapshot
            "Keine gueltigen Preise fuer gewaehlte Strikes")
      | some (short_put_prem, long_put_prem, short_call_prem, long_call_prem) =>
        let net_credit := (short_put_prem + short_call_prem)
          - (long_put_prem + long_call_prem)
        let wing_width_actual := short_put_strike - long_put_strike
        let max_loss := (wing_width_actual - net_credit) * 100
        let max_profit := net_credit * 100
        let breakeven_lower := short_put_strike - net_credit
        let breakeven_upper := short_call_strike + net_credit
        let notes0 : List String :=
          if check_liquidity snapshot.calls snapshot.puts short_put_strike
              short_call_strike then []
          else ["Warnung: Geringe Liquiditaet - groessere Spreads moeglich"]
        if max_loss = 0 then .error ("ZeroDivisionError")
        else
          let max_risk_dollar := cfg.capital * (cfg.max_risk_percent / 100)
          let recommended_contracts : Int :=
            max 1 (pyInt (max_risk_dollar / max_loss))
          let total_risk := (recommended_contracts : ℚ) * max_loss
          if cfg.capital = 0 then .error ("ZeroDivisionError")
          else
            let risk_percent := total_risk / cfg.capital * 100
            let risk_level := assess_risk_level snapshot.vix net_credit
              wing_width_actual
            let confidence := assess_confidence snapshot.vix
              snapshot.expected_move notes0
            let notes := notes0
              ++ (if 20 < snapshot.vix then ["Erhoehte Volatilitaet (VIX)"] else [])
              ++ (if (3/2 : ℚ) < snapshot.expected_move then
                    ["Expected Move - Strikes koennten eng sein"] else [])
              ++ (if 2 < risk_percent then ["Risiko ueber Zielwert von 2%"] else [])
            .ok
              { symbol := snapshot.symbol
                expiry := snapshot.options_expiry
                short_put_strike := short_put_strike
                long_put_strike := long_put_strike
                short_call_strike := short_call_strike
                long_call_strike := long_call_strike
                short_put_premium := short_put_prem
                long_put_premium := long_put_prem
                short_call_premium := short_call_prem
                long_call_premium := long_call_prem
                net_credit := net_credit
                max_loss := max_loss
                max_profit := max_profit
                breakeven_lower := breakeven_lower
                breakeven_upper := breakeven_upper
                recommended_contracts := recommended_contracts
                total_risk := total_risk
                risk_percent := risk_percent
                current_price := snapshot.price
                vix := snapshot.vix
                expected_move := snapshot.expected_move
                iv_percentile := snapshot.iv_percentile
                risk_level := risk_level
                confidence := confidence
                notes := notes
                is_valid := true
                rejection_reason := none }

/-- `ScreenerResult` from src/screener.py (lines 161-198); the source-URL
strings and the news list are presentation-only and omitted. -/
structure ScreenerResult where
  symbol : String
  company_name : String
  current_price : ℚ
  iron_condor_score : ℚ
  straddle_score : ℚ
  recommended_strategy : String
  reasons : List String
  warnings : List String
  iv_percentile : ℚ
  expected_move_pct : ℚ
  avg_volume : Int
  has_earnings_soon : Bool
  earnings_date : Option String
  days_to_earnings : Option Int
  options_liquid : Bool
  avg_option_volume : Int
  bid_ask_spread_pct : ℚ

deriving DecidableEq

/-- `StockScreener.__init__`: `max_straddle_stock_price = (capital * 0.10) / 3`
(src/screener.py line 237). -/
def max_straddle_stock_price (capital : ℚ) : ℚ := capital * (10/100) / 3

/-- The straddle window test of the categorization loop (src/screener.py
line 280): `r.has_earnings_soon and r.days_to_earnings is not None and
0 <= r.days_to_earnings <= 7`. -/
def in_earnings_window (r : ScreenerResult) : Bool :=
  r.has_earnings_soon &&
    match r.days_to_earnings with
    | some d => decide (0 ≤ d ∧ d ≤ 7)
    | none => false

/-- A candidate is appended to `straddle_candidates` (src/screener.py
lines 275-284) iff it is liquid, in the earnings window, scores over 40
and is cheap enough. -/
def straddle_pred (capital : ℚ) (r : ScreenerResult) : Bool :=
  r.options_liquid && in_earnings_window r &&
    decide (40 < r.straddle_score) &&
    decide (r.current_price ≤ max_straddle_stock_price capital)

/-- A candidate is appended to `iron_condor_candidates` (src/screener.py
lines 291-294): the elif branch runs only when the earnings-window test
failed, and requires no earnings soon, expected move below 2 and an
iron-condor score over 50. -/
def iron_condor_pred (r : ScreenerResult) : Bool :=
  r.options_liquid && !(in_earnings_window r) &&
    (!r.has_earnings_soon && decide (r.expected_move_pct < 2)) &&
    decide (50 < r.iron_condor_score)

/-- The straddle bucket before sorting and truncation: the loop appends
matching candidates in input order, i.e. a filter. -/
def straddle_pre (capital : ℚ) (results : List ScreenerResult) :
    List ScreenerResult :=
  results.filter (straddle_pred capital)

/-- The iron-condor bucket before sorting and truncation. -/
def iron_condor_pre (results : List ScreenerResult) : List ScreenerResult :=
  results.filter iron_condor_pred

/-- Stable insertion for a descending sort: the new element is placed
after every element whose key is ≥ its own, matching the stability of
Python's `sorted(..., reverse=True)`. -/
def insertDesc (key : α → ℚ) (x : α) : List α → List α
  | [] => [x]
  | y :: ys => if key y < key x then x :: y :: ys else y :: insertDesc key x ys

/-- Stable descending sort by key, modelling
`sorted(candidates, key=..., reverse=True)`. -/
def sortDesc (key : α → ℚ) (l : List α) : List α :=
  l.foldl (fun acc x => insertDesc key x acc) []

/-- The categorization step of `StockScreener.screen_all` (src/screener.py
lines 263-312) applied to the collected results: partition by the
if/elif, sort each bucket descending by its score, truncate to 5.
Returns (iron_condor, straddle). -/
def categorize (capital : ℚ) (results : List ScreenerResult) :
    List ScreenerResult × List ScreenerResult :=
  ((sortDesc (fun r => r.iron_condor_score) (iron_condor_pre results)).take 5,
   (sortDesc (fun r => r.straddle_score) (straddle_pre capital results)).take 5)

/-- A value read from a Python dict key of int type: the key can be
absent (`dict.get` then returns the supplied default), present with value
None, or present with an int. -/
inductive PyOptInt where
  | missing
  | pynone
  | val (n : Int)

deriving DecidableEq

/-- The `earnings_info` dict consumed by `_calculate_scores`:
`has_earnings_soon` is used only for truthiness; `days_to_earnings` is
read with `earnings.get('days_to_earnings', 999)`. -/
structure EarningsInfo where
  has_earnings_soon : Bool
  days_to_earnings : PyOptInt

deriving DecidableEq

/-- The `iv_info` dict: `iv.get('iv_percentile', 50)` and
`iv.get('expected_move', 0)`; `none` models an absent key. -/
structure IVInfo where
  iv_percentile : Option ℚ
  expected_move : Option ℚ

deriving DecidableEq

/-- The `liquidity_info` dict: `liquidity.get('is_liquid')` (truthiness)
and `liquidity.get('spread_pct', 100)`. -/
structure LiquidityInfo where
  is_liquid : Bool
  spread_pct : Option ℚ

deriving DecidableEq

/-- The earnings block of `_calculate_scores` (src/screener.py lines
627-649), acting on the running scores.  The `.error` case is the
TypeError Python raises at the chained comparison `-1 <= days <= 3` when
`days_to_earnings` is present with value None: then
`earnings.get('days_to_earnings', 999)` returns None, `days == 0` and
`days == 1` are False, and `-1 <= None` raises.  An absent key yields the
default 999, which matches none of the day tests. -/
def earnings_stage (earnings : EarningsInfo) (ic st : ℚ) :
    Except String (ℚ × ℚ × List String) :=
  if earnings.has_earnings_soon then
    match earnings.days_to_earnings with
    | .val d =>
        if d = 0 then
          .ok (ic - 40, st + 40, ["EARNINGS HEUTE - ideal fuer Straddle"])
        else if d = 1 then
          .ok (ic - 35, st + 35, ["Earnings morgen - Straddle-Kandidat"])
        else if -1 ≤ d ∧ d ≤ 3 then
          .ok (ic - 25, st + 25, ["Earnings in Tag(en)"])
        else .ok (ic, st, [])
    | .missing => .ok (ic, st, [])
    | .pynone => .error ("TypeError")
  else .ok (ic + 15, st, ["Keine Earnings in Sicht"])

/-- The IV block of `_calculate_scores` (src/screener.py lines 655-668). -/
def iv_stage (iv_pct expected_move ic st : ℚ) : ℚ × ℚ × List String :=
  if 70 < iv_pct then
    if expected_move < 2 then
      (ic + 10, st, ["Hohe IV bei niedrigem Expected Move - gutes Premium"])
    else (ic - 20, st + 15, ["Hohe IV mit hohem Expected Move - Vorsicht!"])
  else if iv_pct < 30 then
    (ic, st + 10, ["Niedrige IV - guenstiger Straddle-Einstieg"])
  else (ic, st, [])

/-- The expected-move block of `_calculate_scores` (src/screener.py lines
670-684). -/
def move_stage (expected_move ic st : ℚ) : ℚ × ℚ × List String :=
  if 3 ≤ expected_move then
    (ic - 40, st + 20, ["HOHER Expected Move - NUR Straddle!"])
  else if 2 ≤ expected_move then
    (ic - 20, st + 10, ["Expected Move - Iron Condor riskant"])
  else if expected_move < 3/2 then
    (ic + 15, st, ["Niedriger Expected Move - ideal fuer Iron Condor"])
  else (ic, st, [])

/-- The liquidity block of `_calculate_scores` (src/screener.py lines
686-690). -/
def liquidity_stage (is_liquid : Bool) (ic st : ℚ) : ℚ × ℚ × List String :=
  if is_liquid then (ic, st, [])
  else (ic - 20, st - 20, ["Geringe Optionsliquiditaet"])

/-- The spread warning of `_calculate_scores` (src/screener.py lines
692-694): a warning only, no score change. -/
def spread_warning (spread_pct : ℚ) : List String :=
  if 10 < spread_pct then ["Breiter Bid-Ask Spread"] else []

/-- The volume block of `_calculate_scores` (src/screener.py lines
696-701). -/
def volume_stage (avg_volume : Int) (ic st : ℚ) : ℚ × ℚ × List String :=
  if 10000000 < avg_volume then (ic + 5, st + 5, [])
  else if avg_volume < 1000000 then (ic, st, ["Niedriges Handelsvolumen"])
  else (ic, st, [])

/-- `StockScreener._calculate_scores` (src/screener.py lines 614-707):
base scores 50/50, the five adjustment blocks in source order, final
clamp to [0,100].  Returns
(iron_condor_score, straddle_score, reasons, warnings). -/
def calculate_scores (earnings : EarningsInfo) (iv : IVInfo)
    (liquidity : LiquidityInfo) (avg_volume : Int) :
    Except String (ℚ × ℚ × List String × List String) :=
  match earnings_stage earnings 50 50 with
  | .error e => .error e
  | .ok (ic1, st1, reasons1) =>
    let iv_pct := iv.iv_percentile.getD 50
    let expected_move := iv.expected_move.getD 0
    match iv_stage iv_pct expected_move ic1 st1 with
    | (ic2, st2, reasons2) =>
      match move_stage expected_move ic2 st2 with
      | (ic3, st3, reasons3) =>
        match liquidity_stage liquidity.is_liquid ic3 st3 with
        | (ic4, st4, warnings1) =>
          match volume_stage avg_volume ic4 st4 with
          | (ic5, st5, warnings2) =>
            .ok (max 0 (min 100 ic5), max 0 (min 100 st5),
              reasons1 ++ reasons2 ++ reasons3,
              warnings1 ++ spread_warning (liquidity.spread_pct.getD 100)
                ++ warnings2)

/-- Clamp to [0,100], the final step of `_calculate_scores`. -/
def clamp0100 (q : ℚ) : ℚ := max 0 (min 100 q)

/-- Whether an `Except` is an `.ok`. -/
def exceptIsOk : Except ε α → Bool
  | .ok _ => true
  | .error _ => false

/-- The earnings adjustment as the claim words it (spec §4.1). -/
def spec_earnings_adj (e : EarningsInfo) : ℚ × ℚ :=
  if e.has_earnings_soon then
    match e.days_to_earnings with
    | .val d =>
        if d = 0 then (-40, 40)
        else if d = 1 then (-35, 35)
        else if -1 ≤ d ∧ d ≤ 3 then (-25, 25)
        else (0, 0)
    | _ => (0, 0)
  else (15, 0)

/-- The IV-regime adjustment as the claim words it. -/
def spec_iv_adj (iv_pct expected_move : ℚ) : ℚ × ℚ :=
  if 70 < iv_pct then
    if expected_move < 2 then (10, 0) else (-20, 15)
  else if iv_pct < 30 then (0, 10)
  else (0, 0)

/-- The expected-move adjustment as the claim words it. -/
def spec_move_adj (expected_move : ℚ) : ℚ × ℚ :=
  if 3 ≤ expected_move then (-40, 20)
  else if 2 ≤ expected_move then (-20, 10)
  else if expected_move < 3/2 then (15, 0)
  else (0, 0)

/-- The liquidity adjustment as the claim words it. -/
def spec_liquidity_adj (is_liquid : Bool) : ℚ × ℚ :=
  if is_liquid then (0, 0) else (-20, -20)

/-- The volume adjustment as the claim words it. -/
def spec_volume_adj (avg_volume : Int) : ℚ × ℚ :=
  if 10000000 < avg_volume then (5, 5) else (0, 0)

/-- Both scores as the claim words them: neutral base 50 plus the sum of
the additive adjustments, before the final clamp.  Written from the
specification text, to be compared against `calculate_scores`. -/
def spec_scores (e : EarningsInfo) (iv : IVInfo) (liq : LiquidityInfo)
    (avg_volume : Int) : ℚ × ℚ :=
  let a := spec_earnings_adj e
  let b := spec_iv_adj (iv.iv_percentile.getD 50) (iv.expected_move.getD 0)
  let c := spec_move_adj (iv.expected_move.getD 0)
  let d := spec_liquidity_adj liq.is_liquid
  let v := spec_volume_adj avg_volume
  (50 + a.1 + b.1 + c.1 + d.1 + v.1, 50 + a.2 + b.2 + c.2 + d.2 + v.2)

/-- The warnings list `_calculate_scores` produces, as the claim words it:
an illiquidity warning, then a wide-spread warning, then a low-volume
warning, each present iff its condition holds. -/
def spec_warnings (liquidity : LiquidityInfo) (avg_volume : Int) : List String :=
  (if liquidity.is_liquid then [] else ["Geringe Optionsliquiditaet"])
    ++ (if 10 < liquidity.spread_pct.getD 100 then ["Breiter Bid-Ask Spread"] else [])
    ++ (if avg_volume < 1000000 ∧ ¬ 10000000 < avg_volume then
          ["Niedriges Handelsvolumen"] else [])

/-- `r` is the first element of `l` attaining the minimal distance of
`key` to `target`: everything listed before it is strictly farther,
everything after it no closer. -/
def FirstNearestBy (key : α → ℚ) (target : ℚ) (l : List α) (r : α) : Prop :=
  ∃ pre post, l = pre ++ r :: post ∧
    (∀ x ∈ pre, |key r - target| < |key x - target|) ∧
    (∀ x ∈ post, |key r - target| ≤ |key x - target|)

/-- `r` is the first strike of the list attaining the minimal distance to
`target`: every strike listed before it is strictly farther, every strike
after it no closer. -/
def FirstNearestStrike (target : ℚ) (strikes : List ℚ) (r : ℚ) : Prop :=
  ∃ pre post, strikes = pre ++ r :: post ∧
    (∀ x ∈ pre, |r - target| < |x - target|) ∧
    (∀ x ∈ post, |r - target| ≤ |x - target|)

/-- Scenario A call chain: strikes 495 and 497, listed ascending. -/
def callsA : List OptionRow := [⟨495, 1, 1, 0, 0⟩, ⟨497, 1/2, 1/2, 0, 0⟩]

/-- Scenario A put chain: strikes 478 and 480, listed ascending. -/
def putsA : List OptionRow := [⟨478, 1/2, 1/2, 0, 0⟩, ⟨480, 1, 1, 0, 0⟩]

/-- Scenario A market snapshot: VIX 16, IV percentile 45, spot 487.50. -/
def snapOK : MarketSnapshot :=
  { symbol := "SPY", price := 975/2, vix := 16, options_expiry := "2026-10-16",
    calls := callsA, puts := putsA, iv_percentile := 45, expected_move := 1,
    has_earnings_today := false, has_fed_event := false,
    has_economic_data := false, is_trading_day := true,
    putsHaveIVColumn := true }

/-- The signal `generate_signal defaultConfig snapOK` produces. -/
def sigOK : IronCondorSignal :=
  { symbol := "SPY", expiry := "2026-10-16",
    short_put_strike := 480, long_put_strike := 478,
    short_call_strike := 495, long_call_strike := 497,
    short_put_premium := 1, long_put_premium := 1/2,
    short_call_premium := 1, long_call_premium := 1/2,
    net_credit := 1, max_loss := 100, max_profit := 100,
    breakeven_lower := 479, breakeven_upper := 496,
    recommended_contracts := 1, total_risk := 100, risk_percent := 2,
    current_price := 975/2, vix := 16, expected_move := 1,
    iv_percentile := 45, risk_level := "LOW", confidence := "HIGH",
    notes := [], is_valid := true, rejection_reason := none }

/-- Scenario B market snapshot: VIX 30, above the maximum of 25. -/
def snapBad : MarketSnapshot := { snapOK with vix := 30 }

/-- The rejected signal for `snapBad`. -/
def sigBad : IronCondorSignal := create_invalid_signal snapBad ("VIX zu hoch")

/-- A put chain listed in descending strike order (93, 92, 90). -/
def putsDesc : List OptionRow := [⟨93, 1, 1, 0, 0⟩, ⟨92, 1, 1, 0, 0⟩, ⟨90, 1, 1, 0, 0⟩]

/-- A one-strike call chain. -/
def callsC4 : List OptionRow := [⟨110, 1, 1, 0, 0⟩]

/-- A snapshot whose premiums make net credit equal the realized wing
width: short put 95 at 2, long put 93 at 1, short call 105 at 2, long
call 107 at 1, so net credit 2 = 95 − 93. -/
def snapZero : MarketSnapshot :=
  { symbol := "SPY", price := 100, vix := 16, options_expiry := "2026-10-16",
    calls := [⟨105, 2, 2, 0, 0⟩, ⟨107, 1, 1, 0, 0⟩],
    puts := [⟨95, 2, 2, 0, 0⟩, ⟨93, 1, 1, 0, 0⟩], iv_percentile := 45,
    expected_move := 1, has_earnings_today := false, has_fed_event := false,
    has_economic_data := false, is_trading_day := true,
    putsHaveIVColumn := true }

/-- A snapshot with a single put strike 95: the long put fallback is the
unlisted strike 94, whose premium is then read from the nearest row 95. -/
def snapC10 : MarketSnapshot :=
  { symbol := "SPY", price := 100, vix := 16, options_expiry := "2026-10-16",
    calls := [⟨105, 1, 1, 0, 0⟩, ⟨107, 1/2, 1/2, 0, 0⟩],
    puts := [⟨95, 2, 2, 0, 0⟩], iv_percentile := 45, expected_move := 1,
    has_earnings_today := false, has_fed_event := false,
    has_economic_data := false, is_trading_day := true,
    putsHaveIVColumn := true }

/-- The signal `generate_signal defaultConfig snapC10` produces: the
recorded long put strike is 94, but its premium 2 is the mid price of
the listed strike 95. -/
def sigC10 : IronCondorSignal :=
  { symbol := "SPY", expiry := "2026-10-16",
    short_put_strike := 95, long_put_strike := 94,
    short_call_strike := 105, long_call_strike := 107,
    short_put_premium := 2, long_put_premium := 2,
    short_call_premium := 1, long_call_premium := 1/2,
    net_credit := 1/2, max_loss := 50, max_profit := 50,
    breakeven_lower := 189/2, breakeven_upper := 211/2,
    recommended_contracts := 2, total_risk := 100, risk_percent := 2,
    current_price := 100, vix := 16, expected_move := 1,
    iv_percentile := 45, risk_level := "LOW", confidence := "HIGH",
    notes := [], is_valid := true, rejection_reason := none }

/-- Scenario C candidate: earnings in 0 days, straddle score 60,
price 50, liquid options. -/
def scenarioC : ScreenerResult :=
  { symbol := "XYZ", company_name := "Test Corp", current_price := 50,
    iron_condor_score := 50, straddle_score := 60,
    recommended_strategy := "STRADDLE", reasons := [], warnings := [],
    iv_percentile := 50, expected_move_pct := 5, avg_volume := 2000000,
    has_earnings_soon := true, earnings_date := some ("2026-10-13"),
    days_to_earnings := some 0, options_liquid := true,
    avg_option_volume := 500, bid_ask_spread_pct := 5 }

/-- A screener result routed to the straddle bucket. -/
def straddleDup : ScreenerResult :=
  { symbol := "X", company_name := "Dup", current_price := 50,
    iron_condor_score := 50, straddle_score := 60,
    recommended_strategy := "STRADDLE", reasons := [], warnings := [],
    iv_percentile := 50, expected_move_pct := 5, avg_volume := 2000000,
    has_earnings_soon := true, earnings_date := none,
    days_to_earnings := some 0, options_liquid := true,
    avg_option_volume := 500, bid_ask_spread_pct := 5 }

/-- A second result for the same symbol, routed to the iron-condor
bucket. -/
def condorDup : ScreenerResult :=
  { straddleDup with
    has_earnings_soon := false
    days_to_earnings := none
    expected_move_pct := 1
    iron_condor_score := 60
    straddle_score := 30 }

theorem nearestBy_eq_none {key : α → ℚ} {target : ℚ} {l : List α} :
    nearestBy key target l = none ↔ l = [] := by
  cases l with
  | nil => simp [nearestBy]
  | cons x rest =>
    simp only [nearestBy]
    cases h : nearestBy key target rest <;> simp

theorem nearestBy_firstNearest {key : α → ℚ} {target : ℚ} :
    ∀ {l : List α} {r : α}, nearestBy key target l = some r →
      FirstNearestBy key target l r := by
  intro l
  induction l with
  | nil => intro r h; simp [nearestBy] at h
  | cons x rest ih =>
    intro r h
    simp only [nearestBy] at h
    cases hrest : nearestBy key target rest with
    | none =>
      rw [hrest] at h
      obtain rfl := Option.some_injective _ h
      obtain rfl := nearestBy_eq_none.mp hrest
      exact ⟨[], [], rfl, by simp, by simp⟩
    | some b =>
      rw [hrest] at h
      have h2 : some (if |key x - target| ≤ |key b - target| then x else b)
          = some r := h
      obtain ⟨pre, post, hsplit, hpre, hpost⟩ := ih hrest
      by_cases hle : |key x - target| ≤ |key b - target|
      · rw [if_pos hle] at h2
        obtain rfl := Option.some_injective _ h2
        refine ⟨[], rest, rfl, by simp, ?_⟩
        intro y hy
        rw [hsplit] at hy
        rcases List.mem_append.mp hy with hy | hy
        · exact le_of_lt (lt_of_le_of_lt hle (hpre y hy))
        · rcases List.mem_cons.mp hy with rfl | hy
          · exact hle
          · exact le_trans hle (hpost y hy)
      · rw [if_neg hle] at h2
        obtain rfl := Option.some_injective _ h2
        push_neg at hle
        refine ⟨x :: pre, post, by rw [hsplit, List.cons_append], ?_, hpost⟩
        intro y hy
        rcases List.mem_cons.mp hy with rfl | hy
        · exact hle
        · exact hpre y hy

theorem firstNearestBy_mem {key : α → ℚ} {target : ℚ} {l : List α} {r : α}
    (h : FirstNearestBy key target l r) : r ∈ l := by
  obtain ⟨pre, post, hsplit, -, -⟩ := h
  rw [hsplit]; exact List.mem_append_right _ (List.mem_cons_self _ _)

theorem firstNearestBy_min {key : α → ℚ} {target : ℚ} {l : List α} {r : α}
    (h : FirstNearestBy key target l r) :
    ∀ x ∈ l, |key r - target| ≤ |key x - target| := by
  obtain ⟨pre, post, hsplit, hpre, hpost⟩ := h
  intro x hx
  rw [hsplit] at hx
  rcases List.mem_append.mp hx with hx | hx
  · exact le_of_lt (hpre x hx)
  · rcases List.mem_cons.mp hx with rfl | hx
    · exact le_refl _
    · exact hpost x hx

theorem nearestBy_mem {key : α → ℚ} {target : ℚ} {l : List α} {r : α}
    (h : nearestBy key target l = some r) : r ∈ l :=
  firstNearestBy_mem (nearestBy_firstNearest h)

theorem mem_insertDesc {key : α → ℚ} {x a : α} :
    ∀ {l : List α}, a ∈ insertDesc key x l ↔ a = x ∨ a ∈ l := by
  intro l
  induction l with
  | nil => simp [insertDesc]
  | cons y ys ih =>
    simp only [insertDesc]
    by_cases h : key y < key x
    · rw [if_pos h]; simp [or_comm, or_assoc, or_left_comm]
    · rw [if_neg h]
      simp only [List.mem_cons, ih]
      tauto

theorem mem_sortDesc {key : α → ℚ} {a : α} :
    ∀ {l : List α}, a ∈ sortDesc key l ↔ a ∈ l := by
  have general : ∀ (l acc : List α),
      (a ∈ l.foldl (fun acc x => insertDesc key x acc) acc ↔ a ∈ acc ∨ a ∈ l) := by
    intro l
    induction l with
    | nil => intro acc; simp
    | cons x xs ih =>
      intro acc
      simp only [List.foldl_cons, ih, mem_insertDesc, List.mem_cons]
      tauto
  intro l
  simpa [sortDesc] using general l []

theorem mem_getLast? {l : List α} {a : α} (h : l.getLast? = some a) : a ∈ l := by
  induction l with
  | nil => simp at h
  | cons x xs ih =>
    cases xs with
    | nil => simp_all [List.getLast?]
    | cons y ys =>
      rw [List.getLast?_cons_cons] at h
      exact List.mem_cons_of_mem _ (ih h)

theorem mem_head? {l : List α} {a : α} (h : l.head? = some a) : a ∈ l := by
  cases l with
  | nil => simp at h
  | cons x xs => simp_all

/-- In a ≤-sorted list, `getLast?` is an upper bound of the members. -/
theorem getLast?_sorted_max : ∀ {l : List ℚ}, l.Pairwise (· ≤ ·) → ∀ {m : ℚ},
    l.getLast? = some m → ∀ x ∈ l, x ≤ m := by
  intro l
  induction l with
  | nil => intro _ m h; simp at h
  | cons a as ih =>
    intro hs m h x hx
    cases as with
    | nil =>
      simp only [List.getLast?_singleton] at h
      obtain rfl := Option.some_injective _ h
      simp only [List.mem_singleton] at hx
      exact le_of_eq hx
    | cons b bs =>
      rw [List.getLast?_cons_cons] at h
      have hpc := List.pairwise_cons.mp hs
      rcases List.mem_cons.mp hx with rfl | hx
      · exact le_trans (hpc.1 b (by simp)) (ih hpc.2 h b (by simp))
      · exact ih hpc.2 h x hx

/-- In a ≤-sorted list, `head?` is a lower bound of the members. -/
theorem head?_sorted_min {l : List ℚ} (hs : l.Pairwise (· ≤ ·)) {m : ℚ}
    (h : l.head? = some m) : ∀ x ∈ l, m ≤ x := by
  cases l with
  | nil => simp at h
  | cons a as =>
    simp only [List.head?_cons] at h
    obtain rfl := Option.some_injective _ h
    intro x hx
    rcases List.mem_cons.mp hx with rfl | hx
    · exact le_refl _
    · exact (List.pairwise_cons.mp hs).1 x hx

theorem earnings_stage_eq (e : EarningsInfo) (ic st : ℚ)
    (hw : ¬(e.has_earnings_soon = true ∧ e.days_to_earnings = PyOptInt.pynone)) :
    ∃ r, earnings_stage e ic st =
      Except.ok (ic + (spec_earnings_adj e).1, st + (spec_earnings_adj e).2, r) := by
  obtain ⟨he, hd⟩ := e
  cases he with
  | false =>
      refine ⟨["Keine Earnings in Sicht"], ?_⟩
      cases hd <;> simp [earnings_stage, spec_earnings_adj, sub_eq_add_neg]
  | true =>
      cases hd with
      | pynone => exact absurd ⟨rfl, rfl⟩ hw
      | missing =>
          refine ⟨[], ?_⟩
          simp [earnings_stage, spec_earnings_adj]
      | val d =>
          simp only [earnings_stage, spec_earnings_adj, eq_self_iff_true, if_true]
          split_ifs
          · exact ⟨["EARNINGS HEUTE - ideal fuer Straddle"], by simp [sub_eq_add_neg]⟩
          · exact ⟨["Earnings morgen - Straddle-Kandidat"], by simp [sub_eq_add_neg]⟩
          · exact ⟨["Earnings in Tag(en)"], by simp [sub_eq_add_neg]⟩
          · exact ⟨[], by simp⟩

theorem iv_stage_eq (iv_pct expected_move ic st : ℚ) :
    ∃ r, iv_stage iv_pct expected_move ic st =
      (ic + (spec_iv_adj iv_pct expected_move).1,
       st + (spec_iv_adj iv_pct expected_move).2, r) := by
  simp only [iv_stage, spec_iv_adj]
  split_ifs
  · exact ⟨["Hohe IV bei niedrigem Expected Move - gutes Premium"],
      by simp [sub_eq_add_neg]⟩
  · exact ⟨["Hohe IV mit hohem Expected Move - Vorsicht!"],
      by simp [sub_eq_add_neg]⟩
  · exact ⟨["Niedrige IV - guenstiger Straddle-Einstieg"], by simp⟩
  · exact ⟨[], by simp⟩

theorem move_stage_eq (expected_move ic st : ℚ) :
    ∃ r, move_stage expected_move ic st =
      (ic + (spec_move_adj expected_move).1,
       st + (spec_move_adj expected_move).2, r) := by
  simp only [move_stage, spec_move_adj]
  split_ifs
  · exact ⟨["HOHER Expected Move - NUR Straddle!"], by simp [sub_eq_add_neg]⟩
  · exact ⟨["Expected Move - Iron Condor riskant"], by simp [sub_eq_add_neg]⟩
  · exact ⟨["Niedriger Expected Move - ideal fuer Iron Condor"], by simp⟩
  · exact ⟨[], by simp⟩

theorem liquidity_stage_eq (b : Bool) (ic st : ℚ) :
    liquidity_stage b ic st =
      (ic + (spec_liquidity_adj b).1, st + (spec_liquidity_adj b).2,
       if b then [] else ["Geringe Optionsliquiditaet"]) := by
  simp only [liquidity_stage, spec_liquidity_adj]
  split_ifs <;> simp [sub_eq_add_neg]

theorem volume_stage_eq (vol : Int) (ic st : ℚ) :
    volume_stage vol ic st =
      (ic + (spec_volume_adj vol).1, st + (spec_volume_adj vol).2,
       if vol < 1000000 ∧ ¬ 10000000 < vol then ["Niedriges Handelsvolumen"]
       else []) := by
  simp only [volume_stage, spec_volume_adj]
  split_ifs <;> simp [sub_eq_add_neg] <;> omega

/-- On every input whose `days_to_earnings` is an int or an absent key,
`_calculate_scores` returns exactly the clamped spec-side scores and the
spec-side warnings (the reasons text is existentially quantified: the
claim does not constrain it). -/
theorem calculate_scores_spec_ok (e : EarningsInfo) (iv : IVInfo)
    (liq : LiquidityInfo) (vol : Int)
    (hw : ¬(e.has_earnings_soon = true ∧ e.days_to_earnings = PyOptInt.pynone)) :
    ∃ reasons, calculate_scores e iv liq vol =
      Except.ok (clamp0100 (spec_scores e iv liq vol).1,
        clamp0100 (spec_scores e iv liq vol).2, reasons,
        spec_warnings liq vol) := by
  obtain ⟨r1, h1⟩ := earnings_stage_eq e 50 50 hw
  obtain ⟨r2, h2⟩ := iv_stage_eq (iv.iv_percentile.getD 50)
    (iv.expected_move.getD 0) (50 + (spec_earnings_adj e).1)
    (50 + (spec_earnings_adj e).2)
  obtain ⟨r3, h3⟩ := move_stage_eq (iv.expected_move.getD 0)
    (50 + (spec_earnings_adj e).1
      + (spec_iv_adj (iv.iv_percentile.getD 50) (iv.expected_move.getD 0)).1)
    (50 + (spec_earnings_adj e).2
      + (spec_iv_adj (iv.iv_percentile.getD 50) (iv.expected_move.getD 0)).2)
  refine ⟨r1 ++ r2 ++ r3, ?_⟩
  simp only [calculate_scores, h1, h2, h3, liquidity_stage_eq, volume_stage_eq,
    spec_scores, spec_warnings, clamp0100, spread_warning]

theorem nearestBy_strike_firstNearest {t : ℚ} {l : List OptionRow}
    {r : OptionRow} (h : nearestBy OptionRow.strike t l = some r) :
    FirstNearestStrike t (l.map OptionRow.strike) r.strike := by
  obtain ⟨pre, post, rfl, hpre, hpost⟩ := nearestBy_firstNearest h
  refine ⟨pre.map OptionRow.strike, post.map OptionRow.strike, by simp, ?_, ?_⟩
  · intro x hx
    obtain ⟨y, hy, rfl⟩ := List.mem_map.mp hx
    exact hpre y hy
  · intro x hx
    obtain ⟨y, hy, rfl⟩ := List.mem_map.mp hx
    exact hpost y hy

theorem firstNearestStrike_mem {t r : ℚ} {l : List ℚ}
    (h : FirstNearestStrike t l r) : r ∈ l := by
  obtain ⟨pre, post, rfl, -, -⟩ := h
  exact List.mem_append_right _ (List.mem_cons_self _ _)

theorem nearestBy_isSome {key : α → ℚ} {t : ℚ} {l : List α} (h : l ≠ []) :
    ∃ r, nearestBy key t l = some r := by
  cases l with
  | nil => exact absurd rfl h
  | cons x rest =>
    simp only [nearestBy]
    cases nearestBy key t rest <;> exact ⟨_, rfl⟩

theorem short_strike_pick_spec {target : ℚ} {candidates : List OptionRow}
    (h : candidates ≠ []) :
    FirstNearestStrike target (candidates.map OptionRow.strike)
      (short_strike_pick target candidates) := by
  obtain ⟨row, hrow⟩ := @nearestBy_isSome _ OptionRow.strike target _ h
  have : short_strike_pick target candidates = row.strike := by
    simp [short_strike_pick, hrow]
  rw [this]
  exact nearestBy_strike_firstNearest hrow

/-- Structural characterization of `_find_optimal_strikes` on success:
the put and call candidate lists are non-empty and each returned strike
is the corresponding pick at the 0.985/1.015 target. -/
theorem find_optimal_strikes_ok_eq {wing price : ℚ} {hasIV : Bool}
    {calls puts : List OptionRow} {sp lp sc lc : ℚ}
    (h : find_optimal_strikes wing calls puts price hasIV
          = .ok (sp, lp, sc, lc)) :
    puts.filter (fun r => r.strike < price) ≠ [] ∧
    calls.filter (fun r => price < r.strike) ≠ [] ∧
    sp = short_strike_pick (price * (985/1000))
          (puts.filter (fun r => r.strike < price)) ∧
    sc = short_strike_pick (price * (1015/1000))
          (calls.filter (fun r => price < r.strike)) ∧
    lp = long_put_pick (puts.map OptionRow.strike) sp wing ∧
    lc = long_call_pick (calls.map OptionRow.strike) sc wing := by
  have htp : (if hasIV then price * (985/1000)
      else price - price * (15/1000)) = price * (985/1000) := by
    split_ifs <;> ring
  have htc : (if hasIV then price * (1015/1000)
      else price + price * (15/1000)) = price * (1015/1000) := by
    split_ifs <;> ring
  simp only [find_optimal_strikes, htp, htc] at h
  split_ifs at h with hpc hcc
  simp only [Except.ok.injEq, Prod.mk.injEq] at h
  obtain ⟨hsp, hlp, hsc, hlc⟩ := h
  subst hsp
  subst hlp
  subst hsc
  subst hlc
  exact ⟨hpc, hcc, rfl, rfl, rfl, rfl⟩

theorem long_put_pick_lt {strikes : List ℚ} {short_put wing : ℚ}
    (hw : 0 < wing) : long_put_pick strikes short_put wing < short_put := by
  unfold long_put_pick
  split_ifs with hmem
  · linarith
  · cases hlast : (strikes.filter (fun s => s < short_put)).getLast? with
    | none => simp only [hlast]; linarith
    | some s =>
        simp only [hlast]
        have hs := List.mem_filter.mp (mem_getLast? hlast)
        simpa using hs.2

theorem long_call_pick_gt {strikes : List ℚ} {short_call wing : ℚ}
    (hw : 0 < wing) : short_call < long_call_pick strikes short_call wing := by
  unfold long_call_pick
  split_ifs with hmem
  · linarith
  · cases hhead : (strikes.filter (fun s => short_call < s)).head? with
    | none => simp only [hhead]; linarith
    | some s =>
        simp only [hhead]
        have hs := List.mem_filter.mp (mem_head? hhead)
        simpa using hs.2

theorem long_put_pick_sorted_nearest {strikes : List ℚ} {short_put wing : ℚ}
    (hmem : short_put - wing ∉ strikes)
    (hsorted : strikes.Pairwise (· ≤ ·))
    (hex : ∃ s ∈ strikes, s < short_put) :
    long_put_pick strikes short_put wing ∈ strikes ∧
    long_put_pick strikes short_put wing < short_put ∧
    ∀ s ∈ strikes, s < short_put → s ≤ long_put_pick strikes short_put wing := by
  have hne : strikes.filter (fun s => s < short_put) ≠ [] := by
    obtain ⟨s, hs, hlt⟩ := hex
    intro hcontra
    have hmem2 : s ∈ strikes.filter (fun s => s < short_put) :=
      List.mem_filter.mpr ⟨hs, by simpa using hlt⟩
    rw [hcontra] at hmem2
    simp at hmem2
  obtain ⟨m, hm⟩ : ∃ m,
      (strikes.filter (fun s => s < short_put)).getLast? = some m := by
    cases hl : (strikes.filter (fun s => s < short_put)).getLast? with
    | none => exact absurd (List.getLast?_eq_none_iff.mp hl) hne
    | some s => exact ⟨s, rfl⟩
  have hpick : long_put_pick strikes short_put wing = m := by
    unfold long_put_pick
    rw [if_neg hmem, hm]
  have hmfil := List.mem_filter.mp (mem_getLast? hm)
  have hmax := getLast?_sorted_max
    (List.Pairwise.sublist (List.filter_sublist _) hsorted) hm
  refine ⟨hpick ▸ hmfil.1, hpick ▸ (by simpa using hmfil.2), ?_⟩
  intro s hs hlt
  rw [hpick]
  exact hmax s (List.mem_filter.mpr ⟨hs, by simpa using hlt⟩)

theorem long_call_pick_sorted_nearest {strikes : List ℚ} {short_call wing : ℚ}
    (hmem : short_call + wing ∉ strikes)
    (hsorted : strikes.Pairwise (· ≤ ·))
    (hex : ∃ s ∈ strikes, short_call < s) :
    long_call_pick strikes short_call wing ∈ strikes ∧
    short_call < long_call_pick strikes short_call wing ∧
    ∀ s ∈ strikes, short_call < s →
      long_call_pick strikes short_call wing ≤ s := by
  have hne : strikes.filter (fun s => short_call < s) ≠ [] := by
    obtain ⟨s, hs, hlt⟩ := hex
    intro hcontra
    have hmem2 : s ∈ strikes.filter (fun s => short_call < s) :=
      List.mem_filter.mpr ⟨hs, by simpa using hlt⟩
    rw [hcontra] at hmem2
    simp at hmem2
  obtain ⟨m, hm⟩ : ∃ m,
      (strikes.filter (fun s => short_call < s)).head? = some m := by
    cases hl : (strikes.filter (fun s => short_call < s)).head? with
    | none => exact absurd (List.head?_eq_none_iff.mp hl) hne
    | some s => exact ⟨s, rfl⟩
  have hpick : long_call_pick strikes short_call wing = m := by
    unfold long_call_pick
    rw [if_neg hmem, hm]
  have hmfil := List.mem_filter.mp (mem_head? hm)
  have hmin := head?_sorted_min
    (List.Pairwise.sublist (List.filter_sublist _) hsorted) hm
  refine ⟨hpick ▸ hmfil.1, hpick ▸ (by simpa using hmfil.2), ?_⟩
  intro s hs hlt
  rw [hpick]
  exact hmin s (List.mem_filter.mpr ⟨hs, by simpa using hlt⟩)

/-- On success and with a positive wing width, the four strikes of
`_find_optimal_strikes` straddle the spot price in the documented
order. -/
theorem find_optimal_strikes_order {wing price : ℚ} {hasIV : Bool}
    {calls puts : List OptionRow} {sp lp sc lc : ℚ}
    (hwing : 0 < wing)
    (h : find_optimal_strikes wing calls puts price hasIV
          = .ok (sp, lp, sc, lc)) :
    lp < sp ∧ sp < price ∧ price < sc ∧ sc < lc := by
  obtain ⟨hpc, hcc, hsp, hsc, hlp, hlc⟩ := find_optimal_strikes_ok_eq h
  refine ⟨?_, ?_, ?_, ?_⟩
  · rw [hlp]; exact long_put_pick_lt hwing
  · have hmem := firstNearestStrike_mem
      (@short_strike_pick_spec (price * (985/1000)) _ hpc)
    rw [← hsp] at hmem
    obtain ⟨row, hrow, hrs⟩ := List.mem_map.mp hmem
    have hlt := (List.mem_filter.mp hrow).2
    rw [← hrs]
    simpa using hlt
  · have hmem := firstNearestStrike_mem
      (@short_strike_pick_spec (price * (1015/1000)) _ hcc)
    rw [← hsc] at hmem
    obtain ⟨row, hrow, hrs⟩ := List.mem_map.mp hmem
    have hlt := (List.mem_filter.mp hrow).2
    rw [← hrs]
    simpa using hlt
  · rw [hlc]; exact long_call_pick_gt hwing

theorem is_suitable_false_reason_ne {s : MarketSnapshot} {a b : ℚ}
    (h : (s.is_suitable_for_iron_condor a b).1 = false) :
    (s.is_suitable_for_iron_condor a b).2 ≠ "" := by
  unfold MarketSnapshot.is_suitable_for_iron_condor at h ⊢
  split_ifs at h ⊢ <;> first | decide | simp at h

theorem find_optimal_strikes_error_cases {wing price : ℚ} {hasIV : Bool}
    {calls puts : List OptionRow} {e : String}
    (h : find_optimal_strikes wing calls puts price hasIV = .error e) :
    e = "Keine Put-Strikes unter aktuellem Kurs verfuegbar" ∨
    e = "Keine Call-Strikes ueber aktuellem Kurs verfuegbar" := by
  simp only [find_optimal_strikes] at h
  split_ifs at h <;> simp only [Except.error.injEq] at h
  · exact Or.inl h.symm
  · exact Or.inr h.symm

/-- Every `.ok` result of `generate_signal` is either an invalid signal
built by `_create_invalid_signal` from a non-empty reason, or the valid
signal of step 11. -/
theorem generate_signal_shape (cfg : SignalConfig) (snapshot : MarketSnapshot)
    (sig : IronCondorSignal)
    (h : generate_signal cfg snapshot = .ok sig) :
    (∃ r, sig = create_invalid_signal snapshot r ∧ r ≠ "") ∨
    (sig.is_valid = true ∧ sig.rejection_reason = none) := by
  cases hfs : find_optimal_strikes cfg.wing_width snapshot.calls
      snapshot.puts snapshot.price snapshot.putsHaveIVColumn with
  | error e =>
      simp only [generate_signal, hfs] at h
      split_ifs at h with h1 h2 h3
      · injection h with h'
        exact Or.inl ⟨_, h'.symm, is_suitable_false_reason_ne h1⟩
      · injection h with h'
        exact Or.inl ⟨_, h'.symm, by decide⟩
      · injection h with h'
        exact Or.inl ⟨_, h'.symm, by decide⟩
      · injection h with h'
        refine Or.inl ⟨_, h'.symm, ?_⟩
        rcases find_optimal_strikes_error_cases hfs with rfl | rfl <;> decide
  | ok strikes =>
      obtain ⟨sp, lp, sc, lc⟩ := strikes
      cases hp : get_premiums snapshot.calls snapshot.puts sp lp sc lc with
      | none =>
          simp only [generate_signal, hfs, hp] at h
          split_ifs at h with h1 h2 h3
          · injection h with h'
            exact Or.inl ⟨_, h'.symm, is_suitable_false_reason_ne h1⟩
          · injection h with h'
            exact Or.inl ⟨_, h'.symm, by decide⟩
          · injection h with h'
            exact Or.inl ⟨_, h'.symm, by decide⟩
          · injection h with h'
            exact Or.inl ⟨_, h'.symm, by decide⟩
      | some prems =>
          obtain ⟨a, b, c, d⟩ := prems
          simp only [generate_signal, hfs, hp] at h
          split_ifs at h with h1 h2 h3 hml hcap
          · injection h with h'
            exact Or.inl ⟨_, h'.symm, is_suitable_false_reason_ne h1⟩
          · injection h with h'
            exact Or.inl ⟨_, h'.symm, by decide⟩
          · injection h with h'
            exact Or.inl ⟨_, h'.symm, by decide⟩
          all_goals
            injection h with h'
            subst h'
            exact Or.inr ⟨rfl, rfl⟩

/-- Detailed characterization of the valid branch of `generate_signal`:
every field of a valid signal in terms of the selected strikes and
premiums. -/
theorem generate_signal_valid_eq (cfg : SignalConfig) (snapshot : MarketSnapshot)
    (sig : IronCondorSignal)
    (h : generate_signal cfg snapshot = .ok sig)
    (hv : sig.is_valid = true) :
    ∃ sp lp sc lc a b c d,
      find_optimal_strikes cfg.wing_width snapshot.calls snapshot.puts
        snapshot.price snapshot.putsHaveIVColumn = .ok (sp, lp, sc, lc) ∧
      get_premiums snapshot.calls snapshot.puts sp lp sc lc
        = some (a, b, c, d) ∧
      sig.short_put_strike = sp ∧ sig.long_put_strike = lp ∧
      sig.short_call_strike = sc ∧ sig.long_call_strike = lc ∧
      sig.short_put_premium = a ∧ sig.long_put_premium = b ∧
      sig.short_call_premium = c ∧ sig.long_call_premium = d ∧
      sig.net_credit = (a + c) - (b + d) ∧
      sig.max_loss = (sp - lp - ((a + c) - (b + d))) * 100 ∧
      sig.max_loss ≠ 0 ∧
      sig.max_profit = ((a + c) - (b + d)) * 100 ∧
      sig.breakeven_lower = sp - ((a + c) - (b + d)) ∧
      sig.breakeven_upper = sc + ((a + c) - (b + d)) ∧
      sig.current_price = snapshot.price ∧
      sig.recommended_contracts
        = max 1 (pyInt (cfg.capital * (cfg.max_risk_percent / 100)
            / sig.max_loss)) ∧
      sig.total_risk = (sig.recommended_contracts : ℚ) * sig.max_loss ∧
      sig.risk_percent = sig.total_risk / cfg.capital * 100 := by
  cases hfs : find_optimal_strikes cfg.wing_width snapshot.calls
      snapshot.puts snapshot.price snapshot.putsHaveIVColumn with
  | error e =>
      simp only [generate_signal, hfs] at h
      split_ifs at h <;>
        (injection h with h'
         subst h'
         simp [create_invalid_signal] at hv)
  | ok strikes =>
      obtain ⟨sp, lp, sc, lc⟩ := strikes
      cases hp : get_premiums snapshot.calls snapshot.puts sp lp sc lc with
      | none =>
          simp only [generate_signal, hfs, hp] at h
          split_ifs at h <;>
            (injection h with h'
             subst h'
             simp [create_invalid_signal] at hv)
      | some prems =>
          obtain ⟨a, b, c, d⟩ := prems
          simp only [generate_signal, hfs, hp] at h
          split_ifs at h with h1 h2 h3 hml hcap
          · injection h with h'
            subst h'
            simp [create_invalid_signal] at hv
          · injection h with h'
            subst h'
            simp [create_invalid_signal] at hv
          · injection h with h'
            subst h'
            simp [create_invalid_signal] at hv
          all_goals
            injection h with h'
            subst h'
            exact ⟨sp, lp, sc, lc, a, b, c, d, rfl, hp, rfl, rfl, rfl, rfl,
              rfl, rfl, rfl, rfl, rfl, rfl, hml, rfl, rfl, rfl, rfl, rfl,
              rfl, rfl⟩

theorem max_one_pyInt_eq_floor (q : ℚ) : max 1 (pyInt q) = max 1 ⌊q⌋ := by
  unfold pyInt
  split_ifs with h
  · rfl
  · push_neg at h
    have h1 : ⌈q⌉ ≤ 0 := Int.ceil_le.mpr (by exact_mod_cast le_of_lt h)
    have h2 : ⌊q⌋ ≤ 0 := le_trans (Int.floor_le_ceil q) h1
    rw [max_eq_left (by omega), max_eq_left (by omega)]

/-- Once the gates pass, the strikes resolve, the premiums are valid and
the net credit differs from the realized wing width (and the capital is
non-zero), the remainder of `generate_signal` succeeds with a valid
signal. -/
theorem generate_signal_valid_of (cfg : SignalConfig) (snapshot : MarketSnapshot)
    (sp lp sc lc a b c d : ℚ)
    (h1 : (snapshot.is_suitable_for_iron_condor cfg.max_vix cfg.min_vix).1
            = true)
    (h2 : ¬ snapshot.iv_percentile < cfg.min_iv_percentile)
    (h3 : ¬ (snapshot.calls = [] ∨ snapshot.puts = []))
    (h4 : find_optimal_strikes cfg.wing_width snapshot.calls snapshot.puts
            snapshot.price snapshot.putsHaveIVColumn = .ok (sp, lp, sc, lc))
    (h5 : get_premiums snapshot.calls snapshot.puts sp lp sc lc
            = some (a, b, c, d))
    (h6 : (a + c) - (b + d) ≠ sp - lp)
    (h7 : cfg.capital ≠ 0) :
    ∃ sig, generate_signal cfg snapshot = .ok sig ∧ sig.is_valid = true := by
  simp only [generate_signal, h4, h5]
  split_ifs <;>
    first
    | exact ⟨_, rfl, rfl⟩
    | (simp_all
       exact h6 (by linarith))
    | simp_all

/-- When the requested strike has no exact row, `get_mid_price` prices the
first nearest-by-strike row instead. -/
theorem get_mid_price_nearest {df : List OptionRow} {s : ℚ}
    (hne : df ≠ []) (hmiss : ∀ r ∈ df, r.strike ≠ s) :
    ∃ row, row ∈ df ∧ row.strike ≠ s ∧
      FirstNearestBy OptionRow.strike s df row ∧
      get_mid_price df s =
        some (if 0 < row.bid ∧ 0 < row.ask then (row.bid + row.ask) / 2
              else row.lastPrice) := by
  have hfind : df.find? (fun r => decide (r.strike = s)) = none := by
    apply List.find?_eq_none.mpr
    intro r hr
    simpa using hmiss r hr
  obtain ⟨row, hrow⟩ := @nearestBy_isSome _ OptionRow.strike s _ hne
  have hmem := nearestBy_mem hrow
  refine ⟨row, hmem, hmiss row hmem, nearestBy_firstNearest hrow, ?_⟩
  simp only [get_mid_price, hfind, hrow]
  split_ifs <;> rfl

theorem mem_categorize_fst {capital : ℚ} {results : List ScreenerResult}
    {r : ScreenerResult} (h : r ∈ (categorize capital results).1) :
    r ∈ results ∧ iron_condor_pred r = true := by
  unfold categorize at h
  have h1 : r ∈ sortDesc (fun r => r.iron_condor_score)
      (iron_condor_pre results) := (List.take_sublist _ _).subset h
  have h2 : r ∈ iron_condor_pre results := mem_sortDesc.mp h1
  exact ⟨(List.mem_filter.mp h2).1, (List.mem_filter.mp h2).2⟩

theorem mem_categorize_snd {capital : ℚ} {results : List ScreenerResult}
    {r : ScreenerResult} (h : r ∈ (categorize capital results).2) :
    r ∈ results ∧ straddle_pred capital r = true := by
  unfold categorize at h
  have h1 : r ∈ sortDesc (fun r => r.straddle_score)
      (straddle_pre capital results) := (List.take_sublist _ _).subset h
  have h2 : r ∈ straddle_pre capital results := mem_sortDesc.mp h1
  exact ⟨(List.mem_filter.mp h2).1, (List.mem_filter.mp h2).2⟩

theorem in_earnings_window_iff (r : ScreenerResult) :
    in_earnings_window r = true ↔
      r.has_earnings_soon = true ∧
      ∃ d, r.days_to_earnings = some d ∧ 0 ≤ d ∧ d ≤ 7 := by
  unfold in_earnings_window
  cases hd : r.days_to_earnings with
  | none => simp [hd]
  | some d => simp [hd]

theorem straddle_pred_earnings {capital : ℚ} {r : ScreenerResult}
    (h : straddle_pred capital r = true) : r.has_earnings_soon = true := by
  simp only [straddle_pred, Bool.and_eq_true] at h
  exact ((in_earnings_window_iff r).mp h.1.1.2).1

theorem iron_condor_pred_earnings {r : ScreenerResult}
    (h : iron_condor_pred r = true) : r.has_earnings_soon = false := by
  simp only [iron_condor_pred, Bool.and_eq_true, Bool.not_eq_true'] at h
  exact h.1.2.1

/-- C1 (counterexample): two screener results for the same symbol "X" —
one with earnings soon, one without — are routed to the straddle and the
iron-condor bucket respectively, so the symbol appears in both output
lists of one categorization run. -/
theorem C1_counterexample :
    "X" ∈ (categorize 5000 [straddleDup, condorDup]).1.map
      ScreenerResult.symbol ∧
    "X" ∈ (categorize 5000 [straddleDup, condorDup]).2.map
      ScreenerResult.symbol := by
  norm_num [categorize, straddle_pre, iron_condor_pre, straddle_pred,
    iron_condor_pred, in_earnings_window, max_straddle_stock_price, sortDesc,
    insertDesc, straddleDup, condorDup]

/-- C1 (amended): for every run of the categorization step over a list of
ScreenerResult values in which no two distinct entries share a symbol —
the data model guarantees one result per symbol per run — the returned
iron-condor and straddle buckets are disjoint: no symbol appears in both
output lists.  (The per-element if/elif exclusivity is unconditional; the
symbol-level statement needs the distinctness hypothesis, as
`C1_counterexample` shows.) -/
theorem C1_theorem (capital : ℚ) (results : List ScreenerResult)
    (hdist : ∀ a ∈ results, ∀ b ∈ results, a ≠ b → a.symbol ≠ b.symbol)
    (sym : String) :
    ¬(sym ∈ (categorize capital results).1.map ScreenerResult.symbol ∧
      sym ∈ (categorize capital results).2.map ScreenerResult.symbol) := by
  rintro ⟨hic, hst⟩
  obtain ⟨r1, hr1, hs1⟩ := List.mem_map.mp hic
  obtain ⟨r2, hr2, hs2⟩ := List.mem_map.mp hst
  obtain ⟨hr1mem, hp1⟩ := mem_categorize_fst hr1
  obtain ⟨hr2mem, hp2⟩ := mem_categorize_snd hr2
  by_cases heq : r1 = r2
  · subst heq
    have e1 := iron_condor_pred_earnings hp1
    have e2 := straddle_pred_earnings hp2
    rw [e1] at e2
    exact absurd e2 (by simp)
  · exact hdist r1 hr1mem r2 hr2mem heq (hs1.trans hs2.symm)

/-- C1 witness: the amended theorem applied to a concrete singleton run. -/
theorem C1_witness :
    ¬("X" ∈ (categorize 5000 [straddleDup]).1.map ScreenerResult.symbol ∧
      "X" ∈ (categorize 5000 [straddleDup]).2.map ScreenerResult.symbol) :=
  C1_theorem 5000 [straddleDup] (by simp) "X"

/-- C2: whenever `generate_signal` returns a signal with is_valid false,
all numeric trade fields are 0 and the rejection reason is a non-empty
string; whenever it returns a signal with is_valid true, the rejection
reason is None. -/
theorem C2_theorem (cfg : SignalConfig) (snapshot : MarketSnapshot)
    (sig : IronCondorSignal)
    (h : generate_signal cfg snapshot = .ok sig) :
    (sig.is_valid = false →
      sig.short_put_strike = 0 ∧ sig.long_put_strike = 0 ∧
      sig.short_call_strike = 0 ∧ sig.long_call_strike = 0 ∧
      sig.short_put_premium = 0 ∧ sig.long_put_premium = 0 ∧
      sig.short_call_premium = 0 ∧ sig.long_call_premium = 0 ∧
      sig.net_credit = 0 ∧ sig.max_loss = 0 ∧ sig.max_profit = 0 ∧
      sig.breakeven_lower = 0 ∧ sig.breakeven_upper = 0 ∧
      sig.recommended_contracts = 0 ∧ sig.total_risk = 0 ∧
      sig.risk_percent = 0 ∧
      ∃ r, sig.rejection_reason = some r ∧ r ≠ "") ∧
    (sig.is_valid = true → sig.rejection_reason = none) := by
  rcases generate_signal_shape cfg snapshot sig h with ⟨r, rfl, hr⟩ | ⟨hv, hn⟩
  · refine ⟨fun _ => ?_, fun hv => ?_⟩
    · exact ⟨rfl, rfl, rfl, rfl, rfl, rfl, rfl, rfl, rfl, rfl, rfl, rfl,
        rfl, rfl, rfl, rfl, r, rfl, hr⟩
    · simp [create_invalid_signal] at hv
  · refine ⟨fun hf => ?_, fun _ => hn⟩
    rw [hv] at hf
    exact absurd hf (by simp)

/-- C2 witness: the theorem applied to the VIX-30 rejection of Scenario
B. -/
theorem C2_witness :
    (sigBad.is_valid = false →
      sigBad.short_put_strike = 0 ∧ sigBad.long_put_strike = 0 ∧
      sigBad.short_call_strike = 0 ∧ sigBad.long_call_strike = 0 ∧
      sigBad.short_put_premium = 0 ∧ sigBad.long_put_premium = 0 ∧
      sigBad.short_call_premium = 0 ∧ sigBad.long_call_premium = 0 ∧
      sigBad.net_credit = 0 ∧ sigBad.max_loss = 0 ∧ sigBad.max_profit = 0 ∧
      sigBad.breakeven_lower = 0 ∧ sigBad.breakeven_upper = 0 ∧
      sigBad.recommended_contracts = 0 ∧ sigBad.total_risk = 0 ∧
      sigBad.risk_percent = 0 ∧
      ∃ r, sigBad.rejection_reason = some r ∧ r ≠ "") ∧
    (sigBad.is_valid = true → sigBad.rejection_reason = none) :=
  C2_theorem defaultConfig snapBad sigBad
    (by norm_num [generate_signal, defaultConfig, snapBad, snapOK, sigBad,
      callsA, putsA, MarketSnapshot.is_suitable_for_iron_condor,
      create_invalid_signal])

/-- C3 (counterexample): with `has_earnings_soon` true and
`days_to_earnings` present but null, `_calculate_scores` raises a
TypeError at `-1 <= days <= 3` instead of applying the adjustments and
returning clamped scores. -/
theorem C3_counterexample :
    calculate_scores ⟨true, PyOptInt.pynone⟩ ⟨some 50, some 1⟩
        ⟨true, some 5⟩ 0 = .error ("TypeError") ∧
    exceptIsOk (calculate_scores ⟨true, PyOptInt.pynone⟩ ⟨some 50, some 1⟩
        ⟨true, some 5⟩ 0) = false := by
  norm_num [calculate_scores, earnings_stage, exceptIsOk]

/-- C3 (amended): for every input whose `days_to_earnings` is an integer
or an absent key, `_calculate_scores` starts both scores at 50, applies
exactly the claimed additive adjustments (earnings, IV regime, expected
move, liquidity, volume), emits exactly the claimed warnings, and clamps
both scores to [0,100].  The null-days input raises instead
(`C3_counterexample`). -/
theorem C3_theorem (e : EarningsInfo) (iv : IVInfo) (liq : LiquidityInfo)
    (vol : Int)
    (hw : ¬(e.has_earnings_soon = true ∧
            e.days_to_earnings = PyOptInt.pynone)) :
    ∃ reasons, calculate_scores e iv liq vol =
      Except.ok (clamp0100 (spec_scores e iv liq vol).1,
        clamp0100 (spec_scores e iv liq vol).2, reasons,
        spec_warnings liq vol) :=
  calculate_scores_spec_ok e iv liq vol hw

/-- C3 witness: the amended theorem applied to earnings today, IV
percentile 80, expected move 1, illiquid options, volume 500000. -/
theorem C3_witness :
    ∃ reasons, calculate_scores ⟨true, PyOptInt.val 0⟩ ⟨some 80, some 1⟩
        ⟨false, some 15⟩ 500000 =
      Except.ok
        (clamp0100 (spec_scores ⟨true, PyOptInt.val 0⟩ ⟨some 80, some 1⟩
          ⟨false, some 15⟩ 500000).1,
         clamp0100 (spec_scores ⟨true, PyOptInt.val 0⟩ ⟨some 80, some 1⟩
          ⟨false, some 15⟩ 500000).2, reasons,
         spec_warnings ⟨false, some 15⟩ 500000) :=
  C3_theorem ⟨true, PyOptInt.val 0⟩ ⟨some 80, some 1⟩ ⟨false, some 15⟩
    500000 (by simp)

/-- C9 (counterexample): `_calculate_scores` is not exception-free on all
malformed inputs: `has_earnings_soon` true with `days_to_earnings`
present but null raises a TypeError. -/
theorem C9_counterexample :
    calculate_scores ⟨true, PyOptInt.pynone⟩ ⟨none, none⟩ ⟨false, none⟩ 0
      = .error ("TypeError") := by
  norm_num [calculate_scores, earnings_stage]

/-- C9 (amended): `_calculate_scores` returns a result exactly when the
input is not the has-earnings-with-null-days case (where the chained
comparison raises a TypeError); an absent `iv_percentile` key falls back
to the 50th percentile, and a falsy `has_earnings_soon` behaves as
"no earnings soon" regardless of the days value. -/
theorem C9_theorem (e : EarningsInfo) (iv : IVInfo) (liq : LiquidityInfo)
    (vol : Int) :
    (exceptIsOk (calculate_scores e iv liq vol) = true ↔
      ¬(e.has_earnings_soon = true ∧
        e.days_to_earnings = PyOptInt.pynone)) ∧
    calculate_scores e ⟨none, iv.expected_move⟩ liq vol
      = calculate_scores e ⟨some 50, iv.expected_move⟩ liq vol ∧
    calculate_scores ⟨false, PyOptInt.missing⟩ iv liq vol
      = calculate_scores ⟨false, e.days_to_earnings⟩ iv liq vol := by
  refine ⟨⟨?_, ?_⟩, rfl, rfl⟩
  · intro hok hcon
    have herr : calculate_scores e iv liq vol = .error ("TypeError") := by
      obtain ⟨he, hd⟩ := e
      obtain ⟨h1, h2⟩ := hcon
      simp only at h1 h2
      subst h1
      subst h2
      simp [calculate_scores, earnings_stage]
    rw [herr] at hok
    simp [exceptIsOk] at hok
  · intro hw
    obtain ⟨r, hr⟩ := calculate_scores_spec_ok e iv liq vol hw
    rw [hr]
    rfl

/-- C9 witness: the totality direction at a concrete well-formed input. -/
theorem C9_witness :
    exceptIsOk (calculate_scores ⟨true, PyOptInt.val 2⟩ ⟨some 50, some 1⟩
      ⟨true, some 5⟩ 0) = true :=
  (C9_theorem ⟨true, PyOptInt.val 2⟩ ⟨some 50, some 1⟩ ⟨true, some 5⟩
    0).1.mpr (by simp)

/-- C4 (counterexample): on a put chain listed in descending order
(93, 92, 90) with spot 100 and wing 2, the wing fallback returns the
last listed lower strike 90, although 92 is the nearest listed strike
strictly below the short put 93 — refuting
"falls back to the nearest listed strike strictly further OTM" for
arbitrary chain orderings. -/
theorem C4_counterexample :
    find_optimal_strikes 2 callsC4 putsDesc 100 true
      = .ok (93, 90, 110, 111) ∧
    (92 : ℚ) ∈ putsDesc.map OptionRow.strike ∧ (92 : ℚ) < 93 ∧
    |(93 : ℚ) - 92| < |(93 : ℚ) - 90| := by
  norm_num [find_optimal_strikes, short_strike_pick, nearestBy,
    long_put_pick, long_call_pick, callsC4, putsDesc, List.cons_ne_nil,
    abs_of_nonneg, abs_of_nonpos, List.find?]

/-- C4 (amended): `_find_optimal_strikes` selects as short strikes the
candidate strikes nearest (first on ties, in provider order) to
spot × 0.985 and spot × 1.015; the long strikes are short ∓ wing when
listed, else — on a chain sorted ascending by strike, the provider's
native order — the nearest listed strike strictly further OTM (for an
arbitrary order: the last/first listed such strike), else short ∓ 1.
Scenario A yields (480, 478, 495, 497). -/
theorem C4_theorem (wing price : ℚ) (hasIV : Bool)
    (calls puts : List OptionRow) (sp lp sc lc : ℚ)
    (h : find_optimal_strikes wing calls puts price hasIV
          = .ok (sp, lp, sc, lc)) :
    FirstNearestStrike (price * (985/1000))
      ((puts.filter (fun r => r.strike < price)).map OptionRow.strike) sp ∧
    FirstNearestStrike (price * (1015/1000))
      ((calls.filter (fun r => price < r.strike)).map OptionRow.strike) sc ∧
    (sp - wing ∈ puts.map OptionRow.strike → lp = sp - wing) ∧
    (sp - wing ∉ puts.map OptionRow.strike →
      ((puts.map OptionRow.strike).Pairwise (· ≤ ·) →
        (∃ s ∈ puts.map OptionRow.strike, s < sp) →
          lp ∈ puts.map OptionRow.strike ∧ lp < sp ∧
          ∀ s ∈ puts.map OptionRow.strike, s < sp → s ≤ lp) ∧
      ((¬ ∃ s ∈ puts.map OptionRow.strike, s < sp) → lp = sp - 1)) ∧
    (sc + wing ∈ calls.map OptionRow.strike → lc = sc + wing) ∧
    (sc + wing ∉ calls.map OptionRow.strike →
      ((calls.map OptionRow.strike).Pairwise (· ≤ ·) →
        (∃ s ∈ calls.map OptionRow.strike, sc < s) →
          lc ∈ calls.map OptionRow.strike ∧ sc < lc ∧
          ∀ s ∈ calls.map OptionRow.strike, sc < s → lc ≤ s) ∧
      ((¬ ∃ s ∈ calls.map OptionRow.strike, sc < s) → lc = sc + 1)) ∧
    find_optimal_strikes 2 callsA putsA (975/2) true
      = .ok (480, 478, 495, 497) := by
  obtain ⟨hpc, hcc, hsp, hsc, hlp, hlc⟩ := find_optimal_strikes_ok_eq h
  refine ⟨?_, ?_, ?_, ?_, ?_, ?_, ?_⟩
  · rw [hsp]; exact short_strike_pick_spec hpc
  · rw [hsc]; exact short_strike_pick_spec hcc
  · intro hmem
    rw [hlp]
    unfold long_put_pick
    rw [if_pos hmem]
  · intro hmem
    constructor
    · intro hsorted hex
      rw [hlp]
      exact long_put_pick_sorted_nearest hmem hsorted hex
    · intro hnex
      rw [hlp]
      unfold long_put_pick
      rw [if_neg hmem]
      have hfil : (puts.map OptionRow.strike).filter (fun s => s < sp)
          = [] := by
        rw [List.filter_eq_nil_iff]
        intro s hs
        simp only [decide_eq_true_eq]
        exact fun hlt => hnex ⟨s, hs, hlt⟩
      rw [hfil]
      rfl
  · intro hmem
    rw [hlc]
    unfold long_call_pick
    rw [if_pos hmem]
  · intro hmem
    constructor
    · intro hsorted hex
      rw [hlc]
      exact long_call_pick_sorted_nearest hmem hsorted hex
    · intro hnex
      rw [hlc]
      unfold long_call_pick
      rw [if_neg hmem]
      have hfil : (calls.map OptionRow.strike).filter (fun s => sc < s)
          = [] := by
        rw [List.filter_eq_nil_iff]
        intro s hs
        simp only [decide_eq_true_eq]
        exact fun hlt => hnex ⟨s, hs, hlt⟩
      rw [hfil]
      rfl
  · norm_num [find_optimal_strikes, short_strike_pick, nearestBy,
      long_put_pick, long_call_pick, callsA, putsA, List.cons_ne_nil,
      abs_of_nonneg, abs_of_nonpos, List.find?]

/-- C4 witness: the short-put selection of Scenario A is the
first-nearest strike to 0.985 × 487.50 among the listed puts below
spot. -/
theorem C4_witness :
    FirstNearestStrike ((975/2 : ℚ) * (985/1000))
      ((putsA.filter (fun r => r.strike < 975/2)).map OptionRow.strike)
      480 :=
  (C4_theorem 2 (975/2) true callsA putsA 480 478 495 497
    (by norm_num [find_optimal_strikes, short_strike_pick, nearestBy,
      long_put_pick, long_call_pick, callsA, putsA, List.cons_ne_nil,
      abs_of_nonneg, abs_of_nonpos, List.find?])).1

/-- C5: for every valid signal, recommended_contracts is
max(1, floor(capital × max_risk_percent/100 / max_loss)), total_risk is
contracts × max_loss, risk_percent is total_risk / capital × 100, and at
least one contract is always recommended. -/
theorem C5_theorem (cfg : SignalConfig) (snapshot : MarketSnapshot)
    (sig : IronCondorSignal)
    (h : generate_signal cfg snapshot = .ok sig)
    (hv : sig.is_valid = true) :
    sig.recommended_contracts
      = max 1 ⌊cfg.capital * (cfg.max_risk_percent / 100) / sig.max_loss⌋ ∧
    sig.total_risk = (sig.recommended_contracts : ℚ) * sig.max_loss ∧
    sig.risk_percent = sig.total_risk / cfg.capital * 100 ∧
    1 ≤ sig.recommended_contracts := by
  obtain ⟨sp, lp, sc, lc, a, b, c, d, hfs, hp, -, -, -, -, -, -, -, -, -,
    -, -, -, -, -, -, hrc, htr, hrp⟩ :=
    generate_signal_valid_eq cfg snapshot sig h hv
  refine ⟨?_, htr, hrp, ?_⟩
  · rw [hrc, max_one_pyInt_eq_floor]
  · rw [hrc]
    exact le_max_left _ _

/-- C5 witness: the theorem applied to the Scenario A signal, where one
contract exactly matches the risk budget. -/
theorem C5_witness :
    sigOK.recommended_contracts
      = max 1 ⌊defaultConfig.capital * (defaultConfig.max_risk_percent / 100)
          / sigOK.max_loss⌋ ∧
    sigOK.total_risk = (sigOK.recommended_contracts : ℚ) * sigOK.max_loss ∧
    sigOK.risk_percent = sigOK.total_risk / defaultConfig.capital * 100 ∧
    1 ≤ sigOK.recommended_contracts :=
  C5_theorem defaultConfig snapOK sigOK
    (by norm_num [generate_signal, defaultConfig, snapOK, sigOK, callsA,
      putsA, MarketSnapshot.is_suitable_for_iron_condor,
      find_optimal_strikes, short_strike_pick, nearestBy, long_put_pick,
      long_call_pick, get_premiums, get_mid_price, check_liquidity,
      assess_risk_level, assess_confidence, pyInt, List.find?,
      noteIsWarning, List.cons_ne_nil, abs_of_nonneg, abs_of_nonpos])
    rfl

/-- C6: a liquid candidate is placed in the straddle bucket (before the
top-5 truncation) iff it has earnings soon within 0..7 days, a straddle
score over 40, and a price at most capital × 0.10 / 3; Scenario C lands
in the final straddle bucket and not in the iron-condor bucket. -/
theorem C6_theorem (capital : ℚ) (results : List ScreenerResult)
    (r : ScreenerResult) (hliq : r.options_liquid = true) :
    (r ∈ straddle_pre capital results ↔
      r ∈ results ∧ r.has_earnings_soon = true ∧
      (∃ d, r.days_to_earnings = some d ∧ 0 ≤ d ∧ d ≤ 7) ∧
      40 < r.straddle_score ∧
      r.current_price ≤ capital * (10/100) / 3) ∧
    (scenarioC ∈ (categorize 5000 [scenarioC]).2 ∧
     scenarioC ∉ (categorize 5000 [scenarioC]).1) := by
  constructor
  · constructor
    · intro hmem
      obtain ⟨hres, hpred⟩ := List.mem_filter.mp hmem
      simp only [straddle_pred, Bool.and_eq_true, decide_eq_true_eq,
        max_straddle_stock_price] at hpred
      obtain ⟨⟨⟨hl, hw⟩, hs⟩, hp⟩ := hpred
      obtain ⟨he, hd⟩ := (in_earnings_window_iff r).mp hw
      exact ⟨hres, he, hd, hs, hp⟩
    · rintro ⟨hres, he, hd, hs, hp⟩
      refine List.mem_filter.mpr ⟨hres, ?_⟩
      simp only [straddle_pred, Bool.and_eq_true, decide_eq_true_eq,
        max_straddle_stock_price]
      exact ⟨⟨⟨hliq, (in_earnings_window_iff r).mpr ⟨he, hd⟩⟩, hs⟩, hp⟩
  · constructor
    · norm_num [categorize, straddle_pre, iron_condor_pre, straddle_pred,
        iron_condor_pred, in_earnings_window, max_straddle_stock_price,
        sortDesc, insertDesc, scenarioC]
    · norm_num [categorize, straddle_pre, iron_condor_pre, straddle_pred,
        iron_condor_pred, in_earnings_window, max_straddle_stock_price,
        sortDesc, insertDesc, scenarioC]

/-- C6 witness: Scenario C satisfies all four membership conditions. -/
theorem C6_witness :
    scenarioC ∈ [scenarioC] ∧ scenarioC.has_earnings_soon = true ∧
    (∃ d, scenarioC.days_to_earnings = some d ∧ 0 ≤ d ∧ d ≤ 7) ∧
    40 < scenarioC.straddle_score ∧
    scenarioC.current_price ≤ 5000 * (10/100) / 3 :=
  (C6_theorem 5000 [scenarioC] scenarioC rfl).1.mp
    (by norm_num [straddle_pre, straddle_pred, in_earnings_window,
      max_straddle_stock_price, scenarioC])

/-- C7: every valid signal (with a positive configured wing width) has
long_put < short_put < spot < short_call < long_call, and when the net
credit is positive the breakevens bracket the spot. -/
theorem C7_theorem (cfg : SignalConfig) (snapshot : MarketSnapshot)
    (sig : IronCondorSignal) (hwing : 0 < cfg.wing_width)
    (h : generate_signal cfg snapshot = .ok sig)
    (hv : sig.is_valid = true) :
    (sig.long_put_strike < sig.short_put_strike ∧
     sig.short_put_strike < sig.current_price ∧
     sig.current_price < sig.short_call_strike ∧
     sig.short_call_strike < sig.long_call_strike) ∧
    (0 < sig.net_credit →
      sig.breakeven_lower < sig.current_price ∧
      sig.current_price < sig.breakeven_upper) := by
  obtain ⟨sp, lp, sc, lc, a, b, c, d, hfs, hp, h1, h2, h3, h4, -, -, -, -,
    hnet, -, -, -, hbl, hbu, hcp, -, -, -⟩ :=
    generate_signal_valid_eq cfg snapshot sig h hv
  obtain ⟨o1, o2, o3, o4⟩ := find_optimal_strikes_order hwing hfs
  refine ⟨⟨?_, ?_, ?_, ?_⟩, fun hpos => ⟨?_, ?_⟩⟩
  · rw [h2, h1]; exact o1
  · rw [h1, hcp]; exact o2
  · rw [h3, hcp]; exact o3
  · rw [h3, h4]; exact o4
  · rw [hnet] at hpos
    rw [hbl, hcp]
    have : sp - (a + c - (b + d)) < sp := by linarith
    linarith
  · rw [hnet] at hpos
    rw [hbu, hcp]
    linarith

/-- C7 witness: the theorem applied to the Scenario A signal. -/
theorem C7_witness :
    (sigOK.long_put_strike < sigOK.short_put_strike ∧
     sigOK.short_put_strike < sigOK.current_price ∧
     sigOK.current_price < sigOK.short_call_strike ∧
     sigOK.short_call_strike < sigOK.long_call_strike) ∧
    (0 < sigOK.net_credit →
      sigOK.breakeven_lower < sigOK.current_price ∧
      sigOK.current_price < sigOK.breakeven_upper) :=
  C7_theorem defaultConfig snapOK sigOK (by norm_num [defaultConfig])
    (by norm_num [generate_signal, defaultConfig, snapOK, sigOK, callsA,
      putsA, MarketSnapshot.is_suitable_for_iron_condor,
      find_optimal_strikes, short_strike_pick, nearestBy, long_put_pick,
      long_call_pick, get_premiums, get_mid_price, check_liquidity,
      assess_risk_level, assess_confidence, pyInt, List.find?,
      noteIsWarning, List.cons_ne_nil, abs_of_nonneg, abs_of_nonpos])
    rfl

/-- C8 (counterexample): validated premiums do not guarantee the
remainder succeeds: on `snapZero` the four premiums are valid (both
short legs positive) yet the net credit equals the realized wing width,
so `max_loss = 0` and the position-sizing division raises
ZeroDivisionError. -/
theorem C8_counterexample :
    get_premiums snapZero.calls snapZero.puts 95 93 105 107
      = some (2, 1, 2, 1) ∧
    generate_signal defaultConfig snapZero = .error ("ZeroDivisionError") := by
  constructor
  · norm_num [get_premiums, get_mid_price, snapZero, List.find?, nearestBy,
      abs_of_nonneg, abs_of_nonpos]
  · norm_num [generate_signal, defaultConfig, snapZero,
      MarketSnapshot.is_suitable_for_iron_condor, find_optimal_strikes,
      short_strike_pick, nearestBy, long_put_pick, long_call_pick,
      get_premiums, get_mid_price, check_liquidity, assess_risk_level,
      assess_confidence, pyInt, List.find?, noteIsWarning,
      List.cons_ne_nil, abs_of_nonneg, abs_of_nonpos]

/-- C8 (amended): once the gates pass, the strikes resolve, `_get_premiums`
returns a valid result, the net credit differs from the realized wing
width (short put − long put) and the capital is non-zero, the remainder
of `generate_signal` — economics, sizing, risk and confidence — always
succeeds with a valid signal; when the net credit equals the realized
wing width the sizing division raises (`C8_counterexample`). -/
theorem C8_theorem (cfg : SignalConfig) (snapshot : MarketSnapshot)
    (sp lp sc lc a b c d : ℚ)
    (h1 : (snapshot.is_suitable_for_iron_condor cfg.max_vix cfg.min_vix).1
            = true)
    (h2 : ¬ snapshot.iv_percentile < cfg.min_iv_percentile)
    (h3 : ¬ (snapshot.calls = [] ∨ snapshot.puts = []))
    (h4 : find_optimal_strikes cfg.wing_width snapshot.calls snapshot.puts
            snapshot.price snapshot.putsHaveIVColumn = .ok (sp, lp, sc, lc))
    (h5 : get_premiums snapshot.calls snapshot.puts sp lp sc lc
            = some (a, b, c, d))
    (h6 : (a + c) - (b + d) ≠ sp - lp)
    (h7 : cfg.capital ≠ 0) :
    ∃ sig, generate_signal cfg snapshot = .ok sig ∧ sig.is_valid = true :=
  generate_signal_valid_of cfg snapshot sp lp sc lc a b c d
    h1 h2 h3 h4 h5 h6 h7

/-- C8 witness: the theorem applied to the Scenario A snapshot. -/
theorem C8_witness :
    ∃ sig, generate_signal defaultConfig snapOK = .ok sig ∧
      sig.is_valid = true :=
  C8_theorem defaultConfig snapOK 480 478 495 497 1 (1/2) 1 (1/2)
    (by norm_num [MarketSnapshot.is_suitable_for_iron_condor, snapOK,
      defaultConfig])
    (by norm_num [snapOK, defaultConfig])
    (by simp [snapOK, callsA, putsA])
    (by norm_num [find_optimal_strikes, short_strike_pick, nearestBy,
      long_put_pick, long_call_pick, callsA, putsA, snapOK, defaultConfig,
      List.cons_ne_nil, abs_of_nonneg, abs_of_nonpos, List.find?])
    (by norm_num [get_premiums, get_mid_price, snapOK, callsA, putsA,
      List.find?, nearestBy, abs_of_nonneg, abs_of_nonpos])
    (by norm_num)
    (by norm_num [defaultConfig])

/-- C10: when a requested strike has no exact row, `_get_premiums` prices
the first nearest-by-strike row instead of failing; consequently the
valid `snapC10` signal records long put strike 94 while its long put
premium is the mid price of the listed strike 95. -/
theorem C10_theorem :
    (∀ (df : List OptionRow) (s : ℚ), df ≠ [] →
      (∀ r ∈ df, r.strike ≠ s) →
      ∃ row, row ∈ df ∧ row.strike ≠ s ∧
        FirstNearestBy OptionRow.strike s df row ∧
        get_mid_price df s =
          some (if 0 < row.bid ∧ 0 < row.ask then (row.bid + row.ask) / 2
                else row.lastPrice)) ∧
    (generate_signal defaultConfig snapC10 = .ok sigC10 ∧
     sigC10.is_valid = true ∧
     (∀ r ∈ snapC10.puts, r.strike ≠ sigC10.long_put_strike) ∧
     get_mid_price snapC10.puts sigC10.long_put_strike
       = some sigC10.long_put_premium) := by
  refine ⟨fun df s hne hmiss => get_mid_price_nearest hne hmiss,
    ?_, rfl, ?_, ?_⟩
  · norm_num [generate_signal, defaultConfig, snapC10, sigC10,
      MarketSnapshot.is_suitable_for_iron_condor, find_optimal_strikes,
      short_strike_pick, nearestBy, long_put_pick, long_call_pick,
      get_premiums, get_mid_price, check_liquidity, assess_risk_level,
      assess_confidence, pyInt, List.find?, noteIsWarning,
      List.cons_ne_nil, abs_of_nonneg, abs_of_nonpos]
  · norm_num [snapC10, sigC10]
  · norm_num [get_mid_price, snapC10, sigC10, List.find?, nearestBy,
      abs_of_nonneg, abs_of_nonpos]

/-- C10 witness: the nearest-row fallback at the concrete one-row table
and missing strike 94. -/
theorem C10_witness :
    ∃ row, row ∈ [(⟨95, 2, 2, 0, 0⟩ : OptionRow)] ∧ row.strike ≠ 94 ∧
      FirstNearestBy OptionRow.strike 94 [(⟨95, 2, 2, 0, 0⟩ : OptionRow)]
        row ∧
      get_mid_price [(⟨95, 2, 2, 0, 0⟩ : OptionRow)] 94 =
        some (if 0 < row.bid ∧ 0 < row.ask then (row.bid + row.ask) / 2
              else row.lastPrice) :=
  C10_theorem.1 [⟨95, 2, 2, 0, 0⟩] 94 (by simp) (by norm_num)
